import Mathlib

/-!
Verification of the UQpy Gaussian-process / Grassmann-manifold core against
its natural-language specification.  The Python sources are shallowly
embedded: numpy arrays become real matrices over `Fin`-indexed types,
`scipy.linalg.cholesky` / `cho_solve` are modelled by their documented
contracts (the unique lower-triangular positive-diagonal factor, and the
solve against the factored matrix), exceptions become `Except` / error
fields, and the global numpy random stream becomes an explicit oracle
argument.
-/

open scoped Matrix

/-- The diagonal jitter `1e-10` that the source adds before every Cholesky
factorization (`GaussianProcessRegressor.py`, lines 199, 233, 304). -/
noncomputable def jitterEps : ℝ := 1e-10

/-- Errors surfaced by the embedded GP code: a failed Cholesky factorization
(`scipy.linalg.cholesky` / `np.linalg.cholesky` raising `LinAlgError`), the
`NotImplementedError` raised by `fit` when `min(fun_value) == np.inf`, and the
`ValueError` Python's `min`/`argmin` raise on an empty sequence. -/
inductive GPErr where
  | cholFail
  | mleFail
  | emptyMin
  deriving DecidableEq

/-- `M[0, 0]` — numpy scalar extraction used at the end of `log_likelihood`
(`return 0.5*(...)[0, 0]`).  Out-of-range indexing is modelled by `0`; every
claim instantiates it with nonempty dimensions. -/
def ent00 {a b : ℕ} (M : Matrix (Fin a) (Fin b) ℝ) : ℝ :=
  if ha : 0 < a then if hb : 0 < b then M ⟨0, ha⟩ ⟨0, hb⟩ else 0 else 0

/-- Lower-triangular predicate: all entries strictly above the diagonal vanish. -/
def IsLowerTri {m : ℕ} (L : Matrix (Fin m) (Fin m) ℝ) : Prop :=
  ∀ i j : Fin m, i < j → L i j = 0

/-- `L` is the lower Cholesky factor of `A`: lower triangular, strictly
positive diagonal, and `L * Lᵀ = A`.  This is the contract of
`scipy.linalg.cholesky(A, lower=True)`. -/
def IsCholFactor {m : ℕ} (L A : Matrix (Fin m) (Fin m) ℝ) : Prop :=
  IsLowerTri L ∧ (∀ i : Fin m, 0 < L i i) ∧ L * Lᵀ = A

/-- Model of `scipy.linalg.cholesky(A, lower=True)` (and of
`np.linalg.cholesky`): returns the lower factor when one exists, raises
`LinAlgError` otherwise. -/
noncomputable def cholE {m : ℕ} (A : Matrix (Fin m) (Fin m) ℝ) :
    Except GPErr (Matrix (Fin m) (Fin m) ℝ) :=
  @dite _ (∃ L, IsCholFactor L A) (Classical.propDecidable _)
    (fun h => .ok h.choose) (fun _ => .error .cholFail)

lemma cholE_eq_ok {m : ℕ} {A : Matrix (Fin m) (Fin m) ℝ}
    (h : ∃ L, IsCholFactor L A) : cholE A = .ok h.choose := by
  unfold cholE; exact dif_pos h

lemma cholE_eq_err {m : ℕ} {A : Matrix (Fin m) (Fin m) ℝ}
    (h : ¬ ∃ L, IsCholFactor L A) : cholE A = .error .cholFail := by
  unfold cholE; exact dif_neg h

/-- Model of `scipy.linalg.cho_solve((L, True), B)`: solves
`(L * Lᵀ) · X = B` for `X`. -/
noncomputable def choSolve {m b : ℕ} (L : Matrix (Fin m) (Fin m) ℝ)
    (B : Matrix (Fin m) (Fin b) ℝ) : Matrix (Fin m) (Fin b) ℝ :=
  (L * Lᵀ)⁻¹ * B

/-- The kernel collaborator (`UQpy.surrogates.gpr.kernels`, not part of the
excerpted sources): `c(x, s, params)` produces the pairwise covariance matrix
of two point sets for a vector of `q` kernel parameters. -/
structure GPKernel (d q : ℕ) where
  c : ∀ {a b : ℕ}, Matrix (Fin a) (Fin d) ℝ → Matrix (Fin b) (Fin d) ℝ →
      (Fin q → ℝ) → Matrix (Fin a) (Fin b) ℝ

/-- The covariance matrix built inside `log_likelihood`
(`GaussianProcessRegressor.py`, line 303):
`k_.c(x=s, s=s, params=10**p0[:-1]) + np.eye(m)*(10**p0[-1])**2`. -/
noncomputable def covFromLog {d m : ℕ} (kern : GPKernel d (d + 1))
    (p0 : Fin (d + 2) → ℝ) (s : Matrix (Fin m) (Fin d) ℝ) :
    Matrix (Fin m) (Fin m) ℝ :=
  kern.c s s (fun i => (10 : ℝ) ^ p0 i.castSucc) +
    ((10 : ℝ) ^ p0 (Fin.last (d + 1))) ^ 2 • (1 : Matrix (Fin m) (Fin m) ℝ)

/-- `GaussianProcessRegressor.log_likelihood` (lines 290–317): builds the
covariance from the `10**`-exponentiated log-hyperparameters, adds the
`1e-10` jitter, factors, and returns
`0.5*(y.T @ cho_solve((cc, True), y) + 2*sum(log(abs(diag(cc)))) + m*log(2*pi))[0,0]`.
The (commented-out in the source, but live in `scipy`) `LinAlgError` of a
failed factorization is the `.error` case. -/
noncomputable def log_likelihood {d m k : ℕ} (kern : GPKernel d (d + 1))
    (p0 : Fin (d + 2) → ℝ) (s : Matrix (Fin m) (Fin d) ℝ)
    (y : Matrix (Fin m) (Fin k) ℝ) : Except GPErr ℝ :=
  match cholE (covFromLog kern p0 s + jitterEps • (1 : Matrix (Fin m) (Fin m) ℝ)) with
  | .error e => .error e
  | .ok cc =>
      .ok ((0.5 : ℝ) * (ent00 (yᵀ * choSolve cc y) +
        2 * (∑ i, Real.log |cc i i|) + (m : ℝ) * Real.log (2 * Real.pi)))

/-- Modelled from the claim's words (C1): the value
`0.5*(yᵀ K⁻¹ y + 2*Σ log(diag(L)) + n*log(2π))` where `K` is the kernel
matrix plus squared-noise times the identity (no jitter) and `L` is the lower
Cholesky factor of `K` with the diagonal jitter added before factorization.
Written only to be compared with the source's `log_likelihood`. -/
noncomputable def claim_log_likelihood {d m k : ℕ} (kern : GPKernel d (d + 1))
    (p0 : Fin (d + 2) → ℝ) (s : Matrix (Fin m) (Fin d) ℝ)
    (y : Matrix (Fin m) (Fin k) ℝ) : Except GPErr ℝ :=
  match cholE (covFromLog kern p0 s + jitterEps • (1 : Matrix (Fin m) (Fin m) ℝ)) with
  | .error e => .error e
  | .ok cc =>
      .ok ((0.5 : ℝ) * (ent00 (yᵀ * ((covFromLog kern p0 s)⁻¹ * y)) +
        2 * (∑ i, Real.log (cc i i)) + (m : ℝ) * Real.log (2 * Real.pi)))

lemma ent00_one_dim (M : Matrix (Fin 1) (Fin 1) ℝ) : ent00 M = M 0 0 := by
  simp [ent00]

lemma mul_ent_one_dim (M N : Matrix (Fin 1) (Fin 1) ℝ) :
    (M * N) 0 0 = M 0 0 * N 0 0 := by
  simp [Matrix.mul_apply]

lemma one_dim_inv_ent (A : Matrix (Fin 1) (Fin 1) ℝ) (h : A 0 0 ≠ 0) :
    A⁻¹ 0 0 = (A 0 0)⁻¹ := by
  rw [Matrix.inv_def, Matrix.adjugate_fin_one, Matrix.det_fin_one]
  simp [Ring.inverse_eq_inv']

lemma chol_exists_one_dim {A : Matrix (Fin 1) (Fin 1) ℝ} (h : 0 < A 0 0) :
    ∃ L, IsCholFactor L A := by
  refine ⟨Matrix.of fun _ _ => Real.sqrt (A 0 0), ?_, ?_, ?_⟩
  · intro i j hij
    have hi := i.isLt
    have hj := j.isLt
    rw [Fin.lt_def] at hij
    omega
  · intro i
    exact Real.sqrt_pos.mpr h
  · ext i j
    have hi : i = 0 := Subsingleton.elim _ _
    have hj : j = 0 := Subsingleton.elim _ _
    subst hi; subst hj
    rw [mul_ent_one_dim]
    simp [Real.mul_self_sqrt h.le]

/-- A concrete constant kernel (covariance `1` for every pair of points),
used to instantiate the kernel collaborator in counterexamples. -/
noncomputable def kOne1 : GPKernel 1 2 :=
  ⟨fun {_ _} _ _ _ => Matrix.of fun _ _ => 1⟩

/-- Concrete log-hyperparameter vector `[0, 0, 0]` (all hyperparameters `1`). -/
noncomputable def p0w : Fin 3 → ℝ := fun _ => 0

/-- Concrete single training input. -/
noncomputable def sW : Matrix (Fin 1) (Fin 1) ℝ := 0

/-- Concrete single training output `[[1]]`. -/
noncomputable def yW : Matrix (Fin 1) (Fin 1) ℝ := Matrix.of fun _ _ => 1

lemma covW_ent : covFromLog kOne1 p0w sW 0 0 = 2 := by
  unfold covFromLog kOne1 p0w
  simp [Matrix.add_apply, Matrix.smul_apply, Matrix.one_apply_eq, Real.rpow_zero]
  norm_num

lemma covW_jitter_ent :
    (covFromLog kOne1 p0w sW + jitterEps • (1 : Matrix (Fin 1) (Fin 1) ℝ)) 0 0 =
      2 + jitterEps := by
  simp [Matrix.add_apply, Matrix.smul_apply, Matrix.one_apply_eq, covW_ent]

lemma covW_jitter_pos :
    0 < (covFromLog kOne1 p0w sW + jitterEps • (1 : Matrix (Fin 1) (Fin 1) ℝ)) 0 0 := by
  rw [covW_jitter_ent]; unfold jitterEps; norm_num

/-- C1, counterexample: the claim's formula `0.5*(yᵀK⁻¹y + 2Σlog(diag L) +
n·log 2π)` (with `K` the *unjittered* kernel-plus-noise matrix) differs from
what `log_likelihood` returns, already for one training point with the
constant kernel and unit hyperparameters: the code's quadratic term solves
against the jittered matrix `K + 1e-10·I = LLᵀ`, not against `K`. -/
theorem C1_counterexample :
    log_likelihood kOne1 p0w sW yW ≠ claim_log_likelihood kOne1 p0w sW yW := by
  have hEx := chol_exists_one_dim covW_jitter_pos
  unfold log_likelihood claim_log_likelihood
  rw [cholE_eq_ok hEx]
  dsimp only
  intro hcontra
  rw [Except.ok.injEq] at hcontra
  have h05 : (0.5 : ℝ) ≠ 0 := by norm_num
  have hmul := mul_left_cancel₀ h05 hcontra
  have hadd := add_right_cancel hmul
  obtain ⟨hlt, hpos, hmulA⟩ := hEx.choose_spec
  have habs : ∀ i : Fin 1, |hEx.choose i i| = hEx.choose i i := fun i =>
    abs_of_pos (hpos i)
  simp only [habs] at hadd
  have hadd2 := add_right_cancel hadd
  have hyT : yWᵀ 0 0 = 1 := rfl
  have hy : yW 0 0 = 1 := rfl
  have ht1 : ent00 (yWᵀ * choSolve hEx.choose yW) = (2 + jitterEps)⁻¹ := by
    unfold choSolve
    rw [hmulA, ent00_one_dim, mul_ent_one_dim, mul_ent_one_dim, hyT, hy,
      one_dim_inv_ent _ (by rw [covW_jitter_ent]; unfold jitterEps; norm_num),
      covW_jitter_ent]
    ring
  have ht2 : ent00 (yWᵀ * ((covFromLog kOne1 p0w sW)⁻¹ * yW)) = 2⁻¹ := by
    rw [ent00_one_dim, mul_ent_one_dim, mul_ent_one_dim, hyT, hy,
      one_dim_inv_ent _ (by rw [covW_ent]; norm_num), covW_ent]
    ring
  rw [ht1, ht2] at hadd2
  unfold jitterEps at hadd2
  norm_num at hadd2

/-- C1 (amended): `log_likelihood(p0, k, s, y)` returns exactly
`0.5*(yᵀ(K + εI)⁻¹y + 2·Σ log(diag L) + n·log 2π)` where `K` is the kernel
matrix from the `10**`-exponentiated hyperparameters plus squared
exponentiated noise times the identity, `ε = 1e-10` is the diagonal jitter,
and `L` is the lower Cholesky factor of `K + εI`; i.e. the quadratic term
also uses the jittered matrix `LLᵀ`, not `K` itself. -/
theorem C1_amended {d m k : ℕ} (kern : GPKernel d (d + 1)) (p0 : Fin (d + 2) → ℝ)
    (s : Matrix (Fin m) (Fin d) ℝ) (y : Matrix (Fin m) (Fin k) ℝ)
    (h : ∃ L, IsCholFactor L
      (covFromLog kern p0 s + jitterEps • (1 : Matrix (Fin m) (Fin m) ℝ))) :
    log_likelihood kern p0 s y =
      .ok ((0.5 : ℝ) * (ent00 (yᵀ *
          ((covFromLog kern p0 s + jitterEps • (1 : Matrix (Fin m) (Fin m) ℝ))⁻¹ * y)) +
        2 * (∑ i, Real.log (h.choose i i)) + (m : ℝ) * Real.log (2 * Real.pi))) := by
  unfold log_likelihood
  rw [cholE_eq_ok h]
  dsimp only
  obtain ⟨hlt, hpos, hmulA⟩ := h.choose_spec
  have h1 : choSolve h.choose y =
      (covFromLog kern p0 s + jitterEps • (1 : Matrix (Fin m) (Fin m) ℝ))⁻¹ * y := by
    unfold choSolve; rw [hmulA]
  have h2 : (∑ i, Real.log |h.choose i i|) = ∑ i, Real.log (h.choose i i) :=
    Finset.sum_congr rfl fun i _ => by rw [abs_of_pos (hpos i)]
  rw [h1, h2]

/-- Witness for C1 (amended) at the concrete one-point instance. -/
theorem C1_amended_witness :
    (∃ L, IsCholFactor L
      (covFromLog kOne1 p0w sW + jitterEps • (1 : Matrix (Fin 1) (Fin 1) ℝ))) ∧
    ∃ r : ℝ, log_likelihood kOne1 p0w sW yW = .ok r :=
  ⟨chol_exists_one_dim covW_jitter_pos,
    ⟨_, C1_amended kOne1 p0w sW yW (chol_exists_one_dim covW_jitter_pos)⟩⟩

/-- The mutable attributes of a `GaussianProcessRegressor` instance that the
claims talk about (`__init__`, lines 61–99): hyperparameters, restart count,
the `optimize` and `normalize` flags, hyperparameter bounds, the processed
`random_state` seed (stored at line 99), training data, normalization
statistics, the Cholesky factor `cc` and the cached factor-solve `alpha_`
(`None` when absent, mirroring `self.alpha_ = None`). -/
structure GPState (n d k : ℕ) where
  hyperparameters : Fin (d + 2) → ℝ
  optimizations_number : ℕ
  optimizeFlag : Bool
  normalize : Bool
  bounds : Fin (d + 2) → ℝ × ℝ
  randomSeed : ℕ
  samples : Matrix (Fin n) (Fin d) ℝ
  values : Matrix (Fin n) (Fin k) ℝ
  sample_mean : Fin d → ℝ
  sample_std : Fin d → ℝ
  value_mean : Fin k → ℝ
  value_std : Fin k → ℝ
  cc : Matrix (Fin n) (Fin n) ℝ
  alpha_ : Option (Matrix (Fin n) (Fin k) ℝ)

/-- What `self.optimizer.optimize(...)` returns (fit, lines 177–187): either a
bare `np.ndarray` minimizer, or a result object with fields `.x` and `.fun`.
The objective field is an extended real so that `np.inf` / `-np.inf` results
are representable. -/
inductive OptResult (q : ℕ) where
  | arr (x : Fin q → ℝ)
  | res (x : Fin q → ℝ) (fval : EReal)

/-- One iteration of the restart loop body (fit, lines 182–187): an ndarray
result has its objective recomputed through `log_likelihood` (whose Cholesky
failure propagates), a result object contributes `.x` and `.fun` directly. -/
noncomputable def evalRestart {d m k : ℕ} (kern : GPKernel d (d + 1))
    (s_ : Matrix (Fin m) (Fin d) ℝ) (y_ : Matrix (Fin m) (Fin k) ℝ) :
    OptResult (d + 2) → Except GPErr ((Fin (d + 2) → ℝ) × EReal)
  | .arr x =>
      match log_likelihood kern x s_ y_ with
      | .error e => .error e
      | .ok v => .ok (x, (v : EReal))
  | .res x f => .ok (x, f)

/-- The restart loop (fit, lines 176–187): runs restarts `i, i+1, ...` for the
given remaining count, collecting `(minimizer, objective)` pairs in order; a
raised exception aborts the loop, carrying the failing restart index. -/
noncomputable def runFrom {q : ℕ}
    (f : ℕ → Except GPErr ((Fin q → ℝ) × EReal)) :
    ℕ → ℕ → Except (GPErr × ℕ) (List ((Fin q → ℝ) × EReal))
  | _, 0 => .ok []
  | i, r + 1 =>
    match f i with
    | .error e => .error (e, i)
    | .ok p =>
      match runFrom f (i + 1) r with
      | .error x => .error x
      | .ok ps => .ok (p :: ps)

/-- Fold step keeping the pair with the strictly smaller objective — combined
over a list this reproduces `np.argmin` (first index achieving the minimum). -/
noncomputable def bestStep {q : ℕ} (b c : (Fin q → ℝ) × EReal) :
    (Fin q → ℝ) × EReal :=
  if c.2 < b.2 then c else b

/-- `min(fun_value)` / `np.argmin(fun_value)` (fit, lines 189–192): the first
`(minimizer, objective)` pair whose objective is minimal; `none` on an empty
list (Python raises `ValueError` there). -/
noncomputable def selectBest {q : ℕ} :
    List ((Fin q → ℝ) × EReal) → Option ((Fin q → ℝ) × EReal)
  | [] => none
  | p :: ps => some (ps.foldl bestStep p)

/-- Result of a `fit` call: the instance state at return (on success) or at
the moment the exception escaped (on failure), the error if any, and the list
of starting points handed to the optimizer, in call order. -/
structure FitOutcome (n d k : ℕ) where
  state : GPState n d k
  error : Option GPErr
  starts : List (Fin (d + 2) → ℝ)

/-- `np.mean(M, 0)` — column means. -/
noncomputable def colMean {a b : ℕ} (M : Matrix (Fin a) (Fin b) ℝ) : Fin b → ℝ :=
  fun j => (∑ i, M i j) / a

/-- `np.std(M, 0)` — column (population) standard deviations. -/
noncomputable def colStd {a b : ℕ} (M : Matrix (Fin a) (Fin b) ℝ) : Fin b → ℝ :=
  fun j => Real.sqrt ((∑ i, (M i j - colMean M j) ^ 2) / a)

/-- `(M - mean) / std` with row broadcast. -/
noncomputable def normalizeM {a b : ℕ} (M : Matrix (Fin a) (Fin b) ℝ)
    (mean std : Fin b → ℝ) : Matrix (Fin a) (Fin b) ℝ :=
  Matrix.of fun i j => (M i j - mean j) / std j

/-- `s_` of `fit`/`predict`: the (possibly standardized) training inputs. -/
noncomputable def trainIn {n d k : ℕ} (st : GPState n d k)
    (samples : Matrix (Fin n) (Fin d) ℝ) : Matrix (Fin n) (Fin d) ℝ :=
  if st.normalize then normalizeM samples (colMean samples) (colStd samples)
  else samples

/-- `y_` of `fit`/`predict`: the (possibly standardized) training outputs. -/
noncomputable def trainOut {n d k : ℕ} (st : GPState n d k)
    (values : Matrix (Fin n) (Fin k) ℝ) : Matrix (Fin n) (Fin k) ℝ :=
  if st.normalize then normalizeM values (colMean values) (colStd values)
  else values

/-- `hyperparameters[:-1]` — the kernel parameters (length scales and process
variance). -/
def kernParams {d : ℕ} (hyp : Fin (d + 2) → ℝ) : Fin (d + 1) → ℝ :=
  fun i => hyp i.castSucc

/-- `hyperparameters[-1]` — the noise standard deviation. -/
def noiseOf {d : ℕ} (hyp : Fin (d + 2) → ℝ) : ℝ := hyp (Fin.last (d + 1))

/-- Tail of `fit` (lines 195–201): rebuild
`K = kernel(s_, s_, θ[:-1]) + θ[-1]²·I`, factor `K + 1e-10·I`, cache the
factor and the factor-solve of the training outputs.  A `LinAlgError` here
escapes with the state as mutated so far. -/
noncomputable def finalizeFit {n d k : ℕ} (kern : GPKernel d (d + 1))
    (st : GPState n d k) (s_ : Matrix (Fin n) (Fin d) ℝ)
    (y_ : Matrix (Fin n) (Fin k) ℝ) (startsList : List (Fin (d + 2) → ℝ)) :
    FitOutcome n d k :=
  match cholE (kern.c s_ s_ (kernParams st.hyperparameters) +
      (noiseOf st.hyperparameters) ^ 2 • (1 : Matrix (Fin n) (Fin n) ℝ) +
      jitterEps • (1 : Matrix (Fin n) (Fin n) ℝ)) with
  | .error e => ⟨st, some e, startsList⟩
  | .ok L => ⟨{ st with cc := L, alpha_ := some (choSolve L y_) }, none, startsList⟩

/-- The starting-point schedule of the restart loop (fit, lines 162–163):
`starting_point = np.random.uniform(...)` then
`starting_point[0, :] = np.log10(self.hyperparameters)` — restart `0` starts
at the log of the current hyperparameters, restart `i > 0` at the global
RNG's `i`-th uniform row. -/
noncomputable def startSchedule {d : ℕ} (hyp : Fin (d + 2) → ℝ)
    (draws : ℕ → Fin (d + 2) → ℝ) : ℕ → Fin (d + 2) → ℝ := fun i =>
  if i = 0 then (fun j => Real.logb 10 (hyp j)) else draws i

/-- The MLE block of `fit` (lines 153–193): invalidate `alpha_` (done by the
caller, which passes `st3` with `alpha_ := none`), build the starting points —
row 0 is `np.log10(self.hyperparameters)`, the remaining rows are the global
RNG's uniform draws over the log-bounds box — run the restarts, raise
`NotImplementedError` when the minimum objective is `np.inf`, otherwise select
the first restart attaining the minimal objective and exponentiate its
minimizer, then fall through to the factorization tail. -/
noncomputable def fitOptimizePhase {n d k : ℕ} (kern : GPKernel d (d + 1))
    (opt : (Fin (d + 2) → ℝ) → OptResult (d + 2))
    (draws : ℕ → Fin (d + 2) → ℝ) (st3 : GPState n d k)
    (s_ : Matrix (Fin n) (Fin d) ℝ) (y_ : Matrix (Fin n) (Fin k) ℝ) :
    FitOutcome n d k :=
  match runFrom
      (fun i => evalRestart kern s_ y_
        (opt (startSchedule st3.hyperparameters draws i)))
      0 st3.optimizations_number with
  | .error p =>
      ⟨st3, some p.1,
        (List.range (p.2 + 1)).map (startSchedule st3.hyperparameters draws)⟩
  | .ok runs =>
    match selectBest runs with
    | none =>
        ⟨st3, some .emptyMin,
          (List.range st3.optimizations_number).map
            (startSchedule st3.hyperparameters draws)⟩
    | some best =>
      if best.2 = (⊤ : EReal) then
        ⟨st3, some .mleFail,
          (List.range st3.optimizations_number).map
            (startSchedule st3.hyperparameters draws)⟩
      else
        finalizeFit kern
          { st3 with hyperparameters := fun j => (10 : ℝ) ^ best.1 j }
          s_ y_
          ((List.range st3.optimizations_number).map
            (startSchedule st3.hyperparameters draws))

/-- `GaussianProcessRegressor.fit` (lines 101–202).  `opt` is the optimizer
collaborator, `draws` the values produced by the *global* `np.random.uniform`
(the instance's stored seed is never consulted), `optNum?`/`hyp?` the optional
arguments.  Mirrors the source's write order: `optimizations_number`,
`hyperparameters`, `samples`, `values` and the normalization statistics are
overwritten up front, then the MLE block runs, then the factorization tail. -/
noncomputable def gprFit {n d k : ℕ} (kern : GPKernel d (d + 1))
    (opt : (Fin (d + 2) → ℝ) → OptResult (d + 2))
    (draws : ℕ → Fin (d + 2) → ℝ) (st : GPState n d k)
    (samples : Matrix (Fin n) (Fin d) ℝ) (values : Matrix (Fin n) (Fin k) ℝ)
    (optNum? : Option ℕ) (hyp? : Option (Fin (d + 2) → ℝ)) : FitOutcome n d k :=
  let st2 : GPState n d k :=
    { st with
      optimizations_number := optNum?.getD st.optimizations_number,
      hyperparameters := hyp?.getD st.hyperparameters,
      samples := samples, values := values,
      sample_mean := if st.normalize then colMean samples else st.sample_mean,
      sample_std := if st.normalize then colStd samples else st.sample_std,
      value_mean := if st.normalize then colMean values else st.value_mean,
      value_std := if st.normalize then colStd values else st.value_std }
  if st.optimizeFlag then
    fitOptimizePhase kern opt draws { st2 with alpha_ := none }
      (trainIn st samples) (trainOut st values)
  else finalizeFit kern st2 (trainIn st samples) (trainOut st values) []

/-- What `predict` returns (lines 204–258): the posterior mean as an
`points × outputs` matrix together with whether the code flattened it
(`x_.shape[1] == 1`), and the 1-D standard-deviation vector when
`return_std` was set. -/
structure PredictOut (p k : ℕ) where
  mean : Matrix (Fin p) (Fin k) ℝ
  meanFlattened : Bool
  std : Option (Fin p → ℝ)

/-- First entry of a vector (`value_std` broadcast onto the 1-D `mse` is only
well-defined for one output column; the claims below use `k = 1`). -/
def vhead {k : ℕ} (v : Fin k → ℝ) : ℝ := if h : 0 < k then v ⟨0, h⟩ else 0

/-- `GaussianProcessRegressor.predict` (lines 204–258): normalize the query
points, fall back to an on-the-fly factorization from the *supplied*
hyperparameters when `self.alpha_ is None`, otherwise use the cached
`self.cc` / `self.alpha_`; the cross-covariance `k` and (for the standard
deviation) the new-point covariance `k1` are always evaluated at the supplied
hyperparameters; the mean is flattened exactly when `x_.shape[1] == 1`, i.e.
when the *input* dimension is 1. -/
noncomputable def gprPredict {n d k p : ℕ} (kern : GPKernel d (d + 1))
    (st : GPState n d k) (points : Matrix (Fin p) (Fin d) ℝ)
    (returnStd : Bool) (hyp? : Option (Fin (d + 2) → ℝ)) :
    Except GPErr (PredictOut p k) :=
  let x_ := if st.normalize then normalizeM points st.sample_mean st.sample_std
    else points
  let s_ := if st.normalize then normalizeM st.samples st.sample_mean st.sample_std
    else st.samples
  let y_ := if st.normalize then normalizeM st.values st.value_mean st.value_std
    else st.values
  let hyp := hyp?.getD st.hyperparameters
  let ca : Except GPErr ((Matrix (Fin n) (Fin n) ℝ) × Matrix (Fin n) (Fin k) ℝ) :=
    match st.alpha_ with
    | none =>
      let K := kern.c s_ s_ (kernParams hyp) +
        (noiseOf hyp) ^ 2 • (1 : Matrix (Fin n) (Fin n) ℝ)
      match cholE (K + jitterEps • (1 : Matrix (Fin n) (Fin n) ℝ)) with
      | .error e => .error e
      | .ok cc => .ok (cc, choSolve cc y_)
    | some a => .ok (st.cc, a)
  match ca with
  | .error e => .error e
  | .ok (cc, alpha) =>
    let kx := kern.c x_ s_ (kernParams hyp)
    let y0 := kx * alpha
    let y1 := if st.normalize then
        Matrix.of (fun i j => st.value_mean j + y0 i j * st.value_std j)
      else y0
    let flat := decide (d = 1)
    if returnStd then
      let k1 := kern.c x_ x_ (kernParams hyp)
      let mse0 : Fin p → ℝ := fun i => Real.sqrt ((k1 - kx * choSolve cc kxᵀ) i i)
      let mse := if st.normalize then (fun i => vhead st.value_std * mse0 i)
        else mse0
      .ok ⟨y1, flat, some mse⟩
    else .ok ⟨y1, flat, none⟩

lemma foldlBest_mem {q : ℕ} :
    ∀ (l : List ((Fin q → ℝ) × EReal)) (a), l.foldl bestStep a ∈ a :: l := by
  intro l
  induction l with
  | nil => intro a; simp
  | cons c l ih =>
    intro a
    have h := ih (bestStep a c)
    rw [List.foldl_cons]
    rcases List.mem_cons.mp h with h1 | h1
    · rw [h1]
      unfold bestStep
      by_cases hc : c.2 < a.2
      · rw [if_pos hc]
        exact List.mem_cons_of_mem _ (List.mem_cons_self _ _)
      · rw [if_neg hc]
        exact List.mem_cons_self _ _
    · exact List.mem_cons_of_mem _ (List.mem_cons_of_mem _ h1)

lemma bestStep_le_left {q : ℕ} (a c : (Fin q → ℝ) × EReal) :
    (bestStep a c).2 ≤ a.2 := by
  unfold bestStep
  by_cases hc : c.2 < a.2
  · rw [if_pos hc]; exact le_of_lt hc
  · rw [if_neg hc]

lemma bestStep_le_right {q : ℕ} (a c : (Fin q → ℝ) × EReal) :
    (bestStep a c).2 ≤ c.2 := by
  unfold bestStep
  by_cases hc : c.2 < a.2
  · rw [if_pos hc]
  · rw [if_neg hc]; exact not_lt.mp hc

lemma foldlBest_le {q : ℕ} :
    ∀ (l : List ((Fin q → ℝ) × EReal)) (a) (r), r ∈ a :: l →
      (l.foldl bestStep a).2 ≤ r.2 := by
  intro l
  induction l with
  | nil =>
    intro a r hr
    rcases List.mem_cons.mp hr with h | h
    · subst h; simp
    · simp at h
  | cons c l ih =>
    intro a r hr
    have hhead : ((c :: l).foldl bestStep a).2 ≤ (bestStep a c).2 := by
      rw [List.foldl_cons]
      exact ih (bestStep a c) (bestStep a c) (List.mem_cons_self _ _)
    rcases List.mem_cons.mp hr with h | h
    · subst h; exact hhead.trans (bestStep_le_left _ _)
    · rcases List.mem_cons.mp h with h1 | h1
      · subst h1; exact hhead.trans (bestStep_le_right _ _)
      · rw [List.foldl_cons]
        exact ih (bestStep a c) r (List.mem_cons_of_mem _ h1)

lemma selectBest_mem {q : ℕ} {l : List ((Fin q → ℝ) × EReal)}
    {b : (Fin q → ℝ) × EReal} (h : selectBest l = some b) : b ∈ l := by
  cases l with
  | nil => simp [selectBest] at h
  | cons p ps =>
    rw [selectBest, Option.some.injEq] at h
    subst h
    exact foldlBest_mem ps p

lemma selectBest_le {q : ℕ} {l : List ((Fin q → ℝ) × EReal)}
    {b : (Fin q → ℝ) × EReal} (h : selectBest l = some b) :
    ∀ r ∈ l, b.2 ≤ r.2 := by
  cases l with
  | nil => simp [selectBest] at h
  | cons p ps =>
    rw [selectBest, Option.some.injEq] at h
    subst h
    exact fun r hr => foldlBest_le ps p r hr

lemma selectBest_ne_none {q : ℕ} {l : List ((Fin q → ℝ) × EReal)}
    (h : l ≠ []) : ∃ b, selectBest l = some b := by
  cases l with
  | nil => exact absurd rfl h
  | cons p ps => exact ⟨ps.foldl bestStep p, rfl⟩

lemma runFrom_ok_length {q : ℕ} (f : ℕ → Except GPErr ((Fin q → ℝ) × EReal)) :
    ∀ (r i : ℕ) (l : List ((Fin q → ℝ) × EReal)),
      runFrom f i r = .ok l → l.length = r := by
  intro r
  induction r with
  | zero =>
    intro i l h
    rw [runFrom, Except.ok.injEq] at h
    subst h; rfl
  | succ r ih =>
    intro i l h
    rw [runFrom] at h
    cases hf : f i with
    | error e => rw [hf] at h; exact absurd h (by simp)
    | ok p =>
      rw [hf] at h
      cases hrec : runFrom f (i + 1) r with
      | error x => rw [hrec] at h; exact absurd h (by simp)
      | ok ps =>
        rw [hrec, Except.ok.injEq] at h
        subst h
        simpa using ih (i + 1) ps hrec

/-- The instance state after the eager writes at the top of `fit`
(lines 128–148) and the `alpha_` invalidation (line 155). -/
noncomputable def fitStagedState {n d k : ℕ} (st : GPState n d k)
    (samples : Matrix (Fin n) (Fin d) ℝ) (values : Matrix (Fin n) (Fin k) ℝ)
    (optNum? : Option ℕ) (hyp? : Option (Fin (d + 2) → ℝ)) : GPState n d k :=
  { st with
    optimizations_number := optNum?.getD st.optimizations_number,
    hyperparameters := hyp?.getD st.hyperparameters,
    samples := samples, values := values,
    sample_mean := if st.normalize then colMean samples else st.sample_mean,
    sample_std := if st.normalize then colStd samples else st.sample_std,
    value_mean := if st.normalize then colMean values else st.value_mean,
    value_std := if st.normalize then colStd values else st.value_std,
    alpha_ := none }

lemma gprFit_optimize_eq {n d k : ℕ} (kern : GPKernel d (d + 1))
    (opt : (Fin (d + 2) → ℝ) → OptResult (d + 2)) (draws : ℕ → Fin (d + 2) → ℝ)
    (st : GPState n d k) (samples : Matrix (Fin n) (Fin d) ℝ)
    (values : Matrix (Fin n) (Fin k) ℝ) (optNum? : Option ℕ)
    (hyp? : Option (Fin (d + 2) → ℝ)) (hflag : st.optimizeFlag = true) :
    gprFit kern opt draws st samples values optNum? hyp? =
      fitOptimizePhase kern opt draws (fitStagedState st samples values optNum? hyp?)
        (trainIn st samples) (trainOut st values) := by
  simp only [gprFit]
  rw [if_pos hflag]
  rfl

lemma fitOptimizePhase_eq_ok {n d k : ℕ} (kern : GPKernel d (d + 1))
    (opt : (Fin (d + 2) → ℝ) → OptResult (d + 2)) (draws : ℕ → Fin (d + 2) → ℝ)
    (st3 : GPState n d k) (s_ : Matrix (Fin n) (Fin d) ℝ)
    (y_ : Matrix (Fin n) (Fin k) ℝ)
    {runs : List ((Fin (d + 2) → ℝ) × EReal)} {best : (Fin (d + 2) → ℝ) × EReal}
    (hrun : runFrom
      (fun i => evalRestart kern s_ y_
        (opt (startSchedule st3.hyperparameters draws i)))
      0 st3.optimizations_number = .ok runs)
    (hsel : selectBest runs = some best) (htop : best.2 ≠ (⊤ : EReal)) :
    fitOptimizePhase kern opt draws st3 s_ y_ =
      finalizeFit kern { st3 with hyperparameters := fun j => (10 : ℝ) ^ best.1 j }
        s_ y_
        ((List.range st3.optimizations_number).map
          (startSchedule st3.hyperparameters draws)) := by
  unfold fitOptimizePhase
  rw [hrun]
  dsimp only
  rw [hsel]
  dsimp only
  rw [if_neg htop]

lemma fitOptimizePhase_eq_err {n d k : ℕ} (kern : GPKernel d (d + 1))
    (opt : (Fin (d + 2) → ℝ) → OptResult (d + 2)) (draws : ℕ → Fin (d + 2) → ℝ)
    (st3 : GPState n d k) (s_ : Matrix (Fin n) (Fin d) ℝ)
    (y_ : Matrix (Fin n) (Fin k) ℝ) {e : GPErr} {idx : ℕ}
    (hrun : runFrom
      (fun i => evalRestart kern s_ y_
        (opt (startSchedule st3.hyperparameters draws i)))
      0 st3.optimizations_number = .error (e, idx)) :
    fitOptimizePhase kern opt draws st3 s_ y_ =
      ⟨st3, some e,
        (List.range (idx + 1)).map (startSchedule st3.hyperparameters draws)⟩ := by
  unfold fitOptimizePhase
  rw [hrun]

lemma fitOptimizePhase_eq_empty {n d k : ℕ} (kern : GPKernel d (d + 1))
    (opt : (Fin (d + 2) → ℝ) → OptResult (d + 2)) (draws : ℕ → Fin (d + 2) → ℝ)
    (st3 : GPState n d k) (s_ : Matrix (Fin n) (Fin d) ℝ)
    (y_ : Matrix (Fin n) (Fin k) ℝ)
    (hrun : runFrom
      (fun i => evalRestart kern s_ y_
        (opt (startSchedule st3.hyperparameters draws i)))
      0 st3.optimizations_number = .ok [])
    : fitOptimizePhase kern opt draws st3 s_ y_ =
      ⟨st3, some .emptyMin,
        (List.range st3.optimizations_number).map
          (startSchedule st3.hyperparameters draws)⟩ := by
  unfold fitOptimizePhase
  rw [hrun]
  rfl

lemma fitOptimizePhase_eq_mle {n d k : ℕ} (kern : GPKernel d (d + 1))
    (opt : (Fin (d + 2) → ℝ) → OptResult (d + 2)) (draws : ℕ → Fin (d + 2) → ℝ)
    (st3 : GPState n d k) (s_ : Matrix (Fin n) (Fin d) ℝ)
    (y_ : Matrix (Fin n) (Fin k) ℝ)
    {runs : List ((Fin (d + 2) → ℝ) × EReal)} {best : (Fin (d + 2) → ℝ) × EReal}
    (hrun : runFrom
      (fun i => evalRestart kern s_ y_
        (opt (startSchedule st3.hyperparameters draws i)))
      0 st3.optimizations_number = .ok runs)
    (hsel : selectBest runs = some best) (htop : best.2 = (⊤ : EReal)) :
    fitOptimizePhase kern opt draws st3 s_ y_ =
      ⟨st3, some .mleFail,
        (List.range st3.optimizations_number).map
          (startSchedule st3.hyperparameters draws)⟩ := by
  unfold fitOptimizePhase
  rw [hrun]
  dsimp only
  rw [hsel]
  dsimp only
  rw [if_pos htop]

lemma cholE_error_imp {m : ℕ} {A : Matrix (Fin m) (Fin m) ℝ} {e : GPErr}
    (h : cholE A = .error e) : e = GPErr.cholFail := by
  unfold cholE at h
  by_cases hx : ∃ L, IsCholFactor L A
  · rw [dif_pos hx] at h
    exact absurd h (by simp)
  · rw [dif_neg hx] at h
    injection h with h1
    exact h1.symm

lemma finalizeFit_cases {n d k : ℕ} (kern : GPKernel d (d + 1))
    (st : GPState n d k) (s_ : Matrix (Fin n) (Fin d) ℝ)
    (y_ : Matrix (Fin n) (Fin k) ℝ) (sl : List (Fin (d + 2) → ℝ)) :
    (finalizeFit kern st s_ y_ sl = ⟨st, some GPErr.cholFail, sl⟩) ∨
    (∃ L, finalizeFit kern st s_ y_ sl =
      ⟨{ st with cc := L, alpha_ := some (choSolve L y_) }, none, sl⟩) := by
  unfold finalizeFit
  cases h : cholE (kern.c s_ s_ (kernParams st.hyperparameters) +
      (noiseOf st.hyperparameters) ^ 2 • (1 : Matrix (Fin n) (Fin n) ℝ) +
      jitterEps • (1 : Matrix (Fin n) (Fin n) ℝ)) with
  | error e =>
    left
    have he := cholE_error_imp h
    subst he
    rfl
  | ok L => right; exact ⟨L, rfl⟩

lemma finalizeFit_starts {n d k : ℕ} (kern : GPKernel d (d + 1))
    (st : GPState n d k) (s_ : Matrix (Fin n) (Fin d) ℝ)
    (y_ : Matrix (Fin n) (Fin k) ℝ) (sl : List (Fin (d + 2) → ℝ)) :
    (finalizeFit kern st s_ y_ sl).starts = sl := by
  rcases finalizeFit_cases kern st s_ y_ sl with he | ⟨L, hL⟩
  · rw [he]
  · rw [hL]

lemma finalizeFit_hyper {n d k : ℕ} (kern : GPKernel d (d + 1))
    (st : GPState n d k) (s_ : Matrix (Fin n) (Fin d) ℝ)
    (y_ : Matrix (Fin n) (Fin k) ℝ) (sl : List (Fin (d + 2) → ℝ)) :
    (finalizeFit kern st s_ y_ sl).state.hyperparameters = st.hyperparameters := by
  rcases finalizeFit_cases kern st s_ y_ sl with he | ⟨L, hL⟩
  · rw [he]
  · rw [hL]

/-- C2: with optimization enabled, a `fit` call whose restart loop completes
(objectives `runs`, none of them making the minimum `+∞`) performs exactly
`N = optimizations_number` optimizer runs; the starting points handed to the
optimizer are `log10` of the current hyperparameters for restart `0` and the
global RNG's uniform draws for the remaining `N - 1` restarts; and the fitted
hyperparameters are `10 **` the minimizer of a restart whose objective is
lowest across all `N` runs. -/
theorem C2_fit_multistart {n d k : ℕ} (kern : GPKernel d (d + 1))
    (opt : (Fin (d + 2) → ℝ) → OptResult (d + 2)) (draws : ℕ → Fin (d + 2) → ℝ)
    (st : GPState n d k) (samples : Matrix (Fin n) (Fin d) ℝ)
    (values : Matrix (Fin n) (Fin k) ℝ) (optNum? : Option ℕ)
    (hyp? : Option (Fin (d + 2) → ℝ))
    {runs : List ((Fin (d + 2) → ℝ) × EReal)} {best : (Fin (d + 2) → ℝ) × EReal}
    (hflag : st.optimizeFlag = true)
    (hrun : runFrom
      (fun i => evalRestart kern (trainIn st samples) (trainOut st values)
        (opt (startSchedule (hyp?.getD st.hyperparameters) draws i)))
      0 (optNum?.getD st.optimizations_number) = .ok runs)
    (hsel : selectBest runs = some best) (htop : best.2 ≠ (⊤ : EReal)) :
    (gprFit kern opt draws st samples values optNum? hyp?).starts =
      (List.range (optNum?.getD st.optimizations_number)).map
        (startSchedule (hyp?.getD st.hyperparameters) draws) ∧
    runs.length = optNum?.getD st.optimizations_number ∧
    best ∈ runs ∧ (∀ r ∈ runs, best.2 ≤ r.2) ∧
    (gprFit kern opt draws st samples values optNum? hyp?).state.hyperparameters =
      fun j => (10 : ℝ) ^ best.1 j := by
  have heq := gprFit_optimize_eq kern opt draws st samples values optNum? hyp? hflag
  have hphase := fitOptimizePhase_eq_ok kern opt draws
    (fitStagedState st samples values optNum? hyp?)
    (trainIn st samples) (trainOut st values) hrun hsel htop
  rw [heq, hphase]
  refine ⟨finalizeFit_starts _ _ _ _ _,
    runFrom_ok_length _ (optNum?.getD st.optimizations_number) 0 runs hrun,
    selectBest_mem hsel, selectBest_le hsel, ?_⟩
  rw [finalizeFit_hyper]

/-- C3 (amended): (a) when the restart loop completes without an exception,
`fit` raises its `NotImplementedError` iff the minimum recorded objective is
`np.inf`, i.e. iff *every* restart's objective equals `+∞` — an objective of
`-∞` (also non-finite) does *not* trigger the raise; (b) a restart whose
Cholesky factorization fails raises immediately: the `LinAlgError` propagates
out of `fit` instead of contributing a non-finite value to the selection. -/
theorem C3_amended :
    (∀ (n d k : ℕ) (kern : GPKernel d (d + 1))
      (opt : (Fin (d + 2) → ℝ) → OptResult (d + 2))
      (draws : ℕ → Fin (d + 2) → ℝ) (st : GPState n d k)
      (samples : Matrix (Fin n) (Fin d) ℝ) (values : Matrix (Fin n) (Fin k) ℝ)
      (optNum? : Option ℕ) (hyp? : Option (Fin (d + 2) → ℝ))
      (runs : List ((Fin (d + 2) → ℝ) × EReal)),
      st.optimizeFlag = true →
      runFrom
        (fun i => evalRestart kern (trainIn st samples) (trainOut st values)
          (opt (startSchedule (hyp?.getD st.hyperparameters) draws i)))
        0 (optNum?.getD st.optimizations_number) = .ok runs →
      runs ≠ [] →
      ((gprFit kern opt draws st samples values optNum? hyp?).error =
          some GPErr.mleFail ↔ ∀ r ∈ runs, r.2 = (⊤ : EReal))) ∧
    (∀ (n d k : ℕ) (kern : GPKernel d (d + 1))
      (opt : (Fin (d + 2) → ℝ) → OptResult (d + 2))
      (draws : ℕ → Fin (d + 2) → ℝ) (st : GPState n d k)
      (samples : Matrix (Fin n) (Fin d) ℝ) (values : Matrix (Fin n) (Fin k) ℝ)
      (optNum? : Option ℕ) (hyp? : Option (Fin (d + 2) → ℝ))
      (e : GPErr) (idx : ℕ),
      st.optimizeFlag = true →
      runFrom
        (fun i => evalRestart kern (trainIn st samples) (trainOut st values)
          (opt (startSchedule (hyp?.getD st.hyperparameters) draws i)))
        0 (optNum?.getD st.optimizations_number) = .error (e, idx) →
      (gprFit kern opt draws st samples values optNum? hyp?).error = some e) := by
  constructor
  · intro n d k kern opt draws st samples values optNum? hyp? runs hflag hrun hne
    rw [gprFit_optimize_eq kern opt draws st samples values optNum? hyp? hflag]
    obtain ⟨best, hsel⟩ := selectBest_ne_none hne
    by_cases htop : best.2 = (⊤ : EReal)
    · rw [fitOptimizePhase_eq_mle kern opt draws
        (fitStagedState st samples values optNum? hyp?)
        (trainIn st samples) (trainOut st values) hrun hsel htop]
      constructor
      · intro _ r hr
        exact top_le_iff.mp (htop ▸ selectBest_le hsel r hr)
      · intro _; rfl
    · rw [fitOptimizePhase_eq_ok kern opt draws
        (fitStagedState st samples values optNum? hyp?)
        (trainIn st samples) (trainOut st values) hrun hsel htop]
      constructor
      · intro hmle
        exfalso
        rcases finalizeFit_cases kern
          { fitStagedState st samples values optNum? hyp? with
            hyperparameters := fun j => (10 : ℝ) ^ best.1 j }
          (trainIn st samples) (trainOut st values)
          ((List.range ((fitStagedState st samples values optNum? hyp?).optimizations_number)).map
            (startSchedule ((fitStagedState st samples values optNum? hyp?).hyperparameters) draws))
          with he | ⟨L, hL⟩
        · rw [he] at hmle
          simp at hmle
        · rw [hL] at hmle
          simp at hmle
      · intro hall
        exact absurd (hall best (selectBest_mem hsel)) htop
  · intro n d k kern opt draws st samples values optNum? hyp? e idx hflag hrun
    rw [gprFit_optimize_eq kern opt draws st samples values optNum? hyp? hflag,
      fitOptimizePhase_eq_err kern opt draws
        (fitStagedState st samples values optNum? hyp?)
        (trainIn st samples) (trainOut st values) hrun]

/-- C4 (amended): `fit` is *not* atomic.  On any failing path (with
optimization enabled), the failed call has already overwritten `samples`,
`values` and `optimizations_number` with the new arguments and has invalidated
the cached factor-solve (`alpha_ = None`); only the Cholesky factor `cc`
still holds its previous value.  On a successful fit, the training data are
the new arguments and the cached factor-solve is set at the end of the call. -/
theorem C4_amended {n d k : ℕ} (kern : GPKernel d (d + 1))
    (opt : (Fin (d + 2) → ℝ) → OptResult (d + 2)) (draws : ℕ → Fin (d + 2) → ℝ)
    (st : GPState n d k) (samples : Matrix (Fin n) (Fin d) ℝ)
    (values : Matrix (Fin n) (Fin k) ℝ) (optNum? : Option ℕ)
    (hyp? : Option (Fin (d + 2) → ℝ)) (o : FitOutcome n d k)
    (hflag : st.optimizeFlag = true)
    (ho : gprFit kern opt draws st samples values optNum? hyp? = o) :
    (o.error.isSome = true →
      o.state.cc = st.cc ∧ o.state.alpha_ = none ∧
      o.state.samples = samples ∧ o.state.values = values ∧
      o.state.optimizations_number = optNum?.getD st.optimizations_number) ∧
    (o.error = none →
      o.state.samples = samples ∧ o.state.values = values ∧
      o.state.optimizations_number = optNum?.getD st.optimizations_number ∧
      o.state.alpha_.isSome = true) := by
  subst ho
  rw [gprFit_optimize_eq kern opt draws st samples values optNum? hyp? hflag]
  cases hr : runFrom
      (fun i => evalRestart kern (trainIn st samples) (trainOut st values)
        (opt (startSchedule
          ((fitStagedState st samples values optNum? hyp?).hyperparameters)
          draws i)))
      0 ((fitStagedState st samples values optNum? hyp?).optimizations_number) with
  | error p =>
    obtain ⟨e, idx⟩ := p
    rw [fitOptimizePhase_eq_err kern opt draws
      (fitStagedState st samples values optNum? hyp?)
      (trainIn st samples) (trainOut st values) hr]
    constructor
    · intro _
      exact ⟨rfl, rfl, rfl, rfl, rfl⟩
    · intro hnone
      simp at hnone
  | ok runs =>
    cases runs with
    | nil =>
      rw [fitOptimizePhase_eq_empty kern opt draws
        (fitStagedState st samples values optNum? hyp?)
        (trainIn st samples) (trainOut st values) hr]
      constructor
      · intro _
        exact ⟨rfl, rfl, rfl, rfl, rfl⟩
      · intro hnone
        simp at hnone
    | cons r0 rs =>
      obtain ⟨best, hsel⟩ := selectBest_ne_none (show r0 :: rs ≠ [] by simp)
      by_cases htop : best.2 = (⊤ : EReal)
      · rw [fitOptimizePhase_eq_mle kern opt draws
          (fitStagedState st samples values optNum? hyp?)
          (trainIn st samples) (trainOut st values) hr hsel htop]
        constructor
        · intro _
          exact ⟨rfl, rfl, rfl, rfl, rfl⟩
        · intro hnone
          simp at hnone
      · rw [fitOptimizePhase_eq_ok kern opt draws
          (fitStagedState st samples values optNum? hyp?)
          (trainIn st samples) (trainOut st values) hr hsel htop]
        rcases finalizeFit_cases kern
          { fitStagedState st samples values optNum? hyp? with
            hyperparameters := fun j => (10 : ℝ) ^ best.1 j }
          (trainIn st samples) (trainOut st values)
          ((List.range ((fitStagedState st samples values optNum? hyp?).optimizations_number)).map
            (startSchedule ((fitStagedState st samples values optNum? hyp?).hyperparameters) draws))
          with he | ⟨L, hL⟩
        · rw [he]
          constructor
          · intro _
            exact ⟨rfl, rfl, rfl, rfl, rfl⟩
          · intro hnone
            simp at hnone
        · rw [hL]
          constructor
          · intro hs
            simp at hs
          · intro _
            exact ⟨rfl, rfl, rfl, rfl⟩

/-- A previously fitted instance with recognizable field values (training
input `5`, output `7`, factor `3`, cached solve `4`, seed `42`, two restarts). -/
noncomputable def stW : GPState 1 1 1 :=
  { hyperparameters := fun _ => 1
    optimizations_number := 2
    optimizeFlag := true
    normalize := false
    bounds := fun _ => (1 / 1000, 1000)
    randomSeed := 42
    samples := Matrix.of fun _ _ => 5
    values := Matrix.of fun _ _ => 7
    sample_mean := fun _ => 0
    sample_std := fun _ => 1
    value_mean := fun _ => 0
    value_std := fun _ => 1
    cc := Matrix.of fun _ _ => 3
    alpha_ := some (Matrix.of fun _ _ => 4) }

/-- Optimizer oracle returning a result object with objective `+∞` (what the
claims call a failed restart recorded through `p_.fun`). -/
noncomputable def optTop : (Fin 3 → ℝ) → OptResult 3 := fun x => .res x (⊤ : EReal)

/-- Optimizer oracle returning a result object with objective `-∞`. -/
noncomputable def optBot : (Fin 3 → ℝ) → OptResult 3 := fun x => .res x (⊥ : EReal)

/-- Optimizer oracle returning the starting point as a bare ndarray, so that
`fit` recomputes the objective through `log_likelihood` (lines 182–184). -/
noncomputable def optArr : (Fin 3 → ℝ) → OptResult 3 := fun x => .arr x

/-- Optimizer oracle whose objective value is minus the first coordinate of
the returned minimizer (which is the starting point). -/
noncomputable def optNeg : (Fin 3 → ℝ) → OptResult 3 :=
  fun x => .res x (((-(x 0) : ℝ)) : EReal)

/-- Global-RNG draw stream: all draws equal `1`. -/
noncomputable def drawsOne : ℕ → Fin 3 → ℝ := fun _ _ => 1

/-- Global-RNG draw stream: all draws equal `2` (the stream the *same* global
RNG would produce at a later call). -/
noncomputable def drawsTwo : ℕ → Fin 3 → ℝ := fun _ _ => 2

/-- Constant negative kernel, making the covariance non-factorizable. -/
noncomputable def kNeg : GPKernel 1 2 :=
  ⟨fun {_ _} _ _ _ => Matrix.of fun _ _ => -5⟩

lemma chol_not_exists_one_dim {A : Matrix (Fin 1) (Fin 1) ℝ} (h : A 0 0 ≤ 0) :
    ¬ ∃ L, IsCholFactor L A := by
  rintro ⟨L, _, hpos, hmul⟩
  have hent := congrFun (congrFun hmul 0) 0
  rw [mul_ent_one_dim] at hent
  have hLL : (0 : ℝ) < L 0 0 * Lᵀ 0 0 := by
    have := hpos 0
    rw [Matrix.transpose_apply]
    positivity
  rw [hent] at hLL
  exact absurd (hLL.trans_le h) (lt_irrefl 0)

lemma finalizeFit_of_chol_ok {n d k : ℕ} (kern : GPKernel d (d + 1))
    (st : GPState n d k) (s_ : Matrix (Fin n) (Fin d) ℝ)
    (y_ : Matrix (Fin n) (Fin k) ℝ) (sl : List (Fin (d + 2) → ℝ))
    (h : ∃ L, IsCholFactor L (kern.c s_ s_ (kernParams st.hyperparameters) +
      (noiseOf st.hyperparameters) ^ 2 • (1 : Matrix (Fin n) (Fin n) ℝ) +
      jitterEps • (1 : Matrix (Fin n) (Fin n) ℝ))) :
    finalizeFit kern st s_ y_ sl =
      ⟨{ st with cc := h.choose, alpha_ := some (choSolve h.choose y_) },
        none, sl⟩ := by
  unfold finalizeFit
  rw [cholE_eq_ok h]

lemma finalizeFit_of_chol_err {n d k : ℕ} (kern : GPKernel d (d + 1))
    (st : GPState n d k) (s_ : Matrix (Fin n) (Fin d) ℝ)
    (y_ : Matrix (Fin n) (Fin k) ℝ) (sl : List (Fin (d + 2) → ℝ))
    (h : ¬ ∃ L, IsCholFactor L (kern.c s_ s_ (kernParams st.hyperparameters) +
      (noiseOf st.hyperparameters) ^ 2 • (1 : Matrix (Fin n) (Fin n) ℝ) +
      jitterEps • (1 : Matrix (Fin n) (Fin n) ℝ))) :
    finalizeFit kern st s_ y_ sl = ⟨st, some GPErr.cholFail, sl⟩ := by
  unfold finalizeFit
  rw [cholE_eq_err h]

/-- C4, counterexample: a `fit` call that fails (here: every restart's
objective is `np.inf`, so the `NotImplementedError` of line 190 is raised)
does *not* leave the regressor in its previous fitted state — `samples` no
longer holds the pre-call training input and `alpha_` was reset to `None`. -/
theorem C4_counterexample :
    (gprFit kOne1 optTop drawsOne stW sW yW none none).error = some GPErr.mleFail ∧
    (gprFit kOne1 optTop drawsOne stW sW yW none none).state.samples ≠ stW.samples ∧
    (gprFit kOne1 optTop drawsOne stW sW yW none none).state.alpha_ ≠ stW.alpha_ := by
  have hrun : runFrom
      (fun i => evalRestart kOne1 (trainIn stW sW) (trainOut stW yW)
        (optTop (startSchedule ((none : Option (Fin 3 → ℝ)).getD stW.hyperparameters) drawsOne i)))
      0 ((none : Option ℕ).getD stW.optimizations_number) =
      .ok [(startSchedule stW.hyperparameters drawsOne 0, (⊤ : EReal)),
           (startSchedule stW.hyperparameters drawsOne 1, (⊤ : EReal))] := rfl
  have hsel : selectBest [(startSchedule stW.hyperparameters drawsOne 0, (⊤ : EReal)),
      (startSchedule stW.hyperparameters drawsOne 1, (⊤ : EReal))] =
      some (startSchedule stW.hyperparameters drawsOne 0, (⊤ : EReal)) := by
    simp only [selectBest]
    rw [List.foldl_cons, List.foldl_nil]
    rw [show bestStep (startSchedule stW.hyperparameters drawsOne 0, (⊤ : EReal))
        (startSchedule stW.hyperparameters drawsOne 1, (⊤ : EReal)) =
        (startSchedule stW.hyperparameters drawsOne 0, (⊤ : EReal)) from if_neg (lt_irrefl _)]
  have heq := gprFit_optimize_eq kOne1 optTop drawsOne stW sW yW none none rfl
  have hphase := fitOptimizePhase_eq_mle kOne1 optTop drawsOne
    (fitStagedState stW sW yW none none) (trainIn stW sW) (trainOut stW yW)
    hrun hsel rfl
  rw [heq, hphase]
  refine ⟨rfl, ?_, ?_⟩
  · intro hcontra
    have h00 := congrFun (congrFun hcontra 0) 0
    simp [fitStagedState, stW, sW] at h00
  · intro hcontra
    simp [fitStagedState, stW] at hcontra

lemma runFrom_one {q : ℕ} (f : ℕ → Except GPErr ((Fin q → ℝ) × EReal)) (i : ℕ) :
    runFrom f i 1 = match f i with
      | .error e => .error (e, i)
      | .ok p => .ok [p] := by
  cases hf : f i with
  | error e =>
    show (match f i with
      | Except.error e => Except.error (e, i)
      | Except.ok p =>
        match runFrom f (i + 1) 0 with
        | Except.error x => Except.error x
        | Except.ok ps => Except.ok (p :: ps)) = _
    rw [hf]
  | ok p =>
    show (match f i with
      | Except.error e => Except.error (e, i)
      | Except.ok p =>
        match runFrom f (i + 1) 0 with
        | Except.error x => Except.error x
        | Except.ok ps => Except.ok (p :: ps)) = _
    rw [hf]
    rfl

lemma covNeg_jitter_ent :
    (covFromLog kNeg (startSchedule stW.hyperparameters drawsOne 0) (trainIn stW sW) +
      jitterEps • (1 : Matrix (Fin 1) (Fin 1) ℝ)) 0 0 = -4 + jitterEps := by
  simp [covFromLog, kNeg, startSchedule, stW, trainIn, Matrix.add_apply,
    Matrix.smul_apply, Matrix.one_apply_eq, Real.logb_one, Real.rpow_zero]
  norm_num

lemma kNeg_loglik_err :
    log_likelihood kNeg (startSchedule stW.hyperparameters drawsOne 0)
      (trainIn stW sW) (trainOut stW yW) = .error GPErr.cholFail := by
  unfold log_likelihood
  rw [cholE_eq_err (chol_not_exists_one_dim (by
    rw [covNeg_jitter_ent]; unfold jitterEps; norm_num))]

lemma runFromNegArr : runFrom
    (fun i => evalRestart kNeg (trainIn stW sW) (trainOut stW yW)
      (optArr (startSchedule ((none : Option (Fin 3 → ℝ)).getD stW.hyperparameters) drawsOne i)))
    0 ((some 1 : Option ℕ).getD stW.optimizations_number) =
    .error (GPErr.cholFail, 0) := by
  have h0 : evalRestart kNeg (trainIn stW sW) (trainOut stW yW)
      (optArr (startSchedule ((none : Option (Fin 3 → ℝ)).getD stW.hyperparameters) drawsOne 0)) =
      .error GPErr.cholFail := by
    simp only [optArr, evalRestart, Option.getD_none]
    rw [kNeg_loglik_err]
  show runFrom _ 0 1 = _
  rw [runFrom_one]
  rw [h0]

lemma finalizeFit_error_none {n d k : ℕ} (kern : GPKernel d (d + 1))
    (st : GPState n d k) (s_ : Matrix (Fin n) (Fin d) ℝ)
    (y_ : Matrix (Fin n) (Fin k) ℝ) (sl : List (Fin (d + 2) → ℝ))
    (h : ∃ L, IsCholFactor L (kern.c s_ s_ (kernParams st.hyperparameters) +
      (noiseOf st.hyperparameters) ^ 2 • (1 : Matrix (Fin n) (Fin n) ℝ) +
      jitterEps • (1 : Matrix (Fin n) (Fin n) ℝ))) :
    (finalizeFit kern st s_ y_ sl).error = none := by
  rw [finalizeFit_of_chol_ok kern st s_ y_ sl h]

lemma covA_final_ent :
    (kOne1.c (trainIn stW sW) (trainIn stW sW)
      (kernParams (fun j => (10 : ℝ) ^ startSchedule stW.hyperparameters drawsOne 0 j)) +
      (noiseOf (fun j => (10 : ℝ) ^ startSchedule stW.hyperparameters drawsOne 0 j)) ^ 2 •
        (1 : Matrix (Fin 1) (Fin 1) ℝ) +
      jitterEps • (1 : Matrix (Fin 1) (Fin 1) ℝ)) 0 0 = 2 + jitterEps := by
  simp [kOne1, noiseOf, startSchedule, stW, Matrix.add_apply, Matrix.smul_apply,
    Matrix.one_apply_eq, Real.logb_one, Real.rpow_zero]
  norm_num

/-- C3, counterexample: (a) with a single restart whose recorded objective is
`-∞` — a non-finite value — the claim demands a hard error, but the code's
`min(fun_value) == np.inf` test is false and `fit` completes without raising
(`error = none`); (b) a single restart whose Cholesky factorization fails is
not "merely excluded": the error aborts the whole `fit` call. -/
theorem C3_counterexample :
    runFrom
      (fun i => evalRestart kOne1 (trainIn stW sW) (trainOut stW yW)
        (optBot (startSchedule ((none : Option (Fin 3 → ℝ)).getD stW.hyperparameters) drawsOne i)))
      0 ((some 1 : Option ℕ).getD stW.optimizations_number) =
      .ok [(startSchedule stW.hyperparameters drawsOne 0, (⊥ : EReal))] ∧
    (gprFit kOne1 optBot drawsOne stW sW yW (some 1) none).error = none ∧
    (gprFit kNeg optArr drawsOne stW sW yW (some 1) none).error = some GPErr.cholFail := by
  refine ⟨rfl, ?_, ?_⟩
  · have heq := gprFit_optimize_eq kOne1 optBot drawsOne stW sW yW (some 1) none rfl
    have hrunA : runFrom
        (fun i => evalRestart kOne1 (trainIn stW sW) (trainOut stW yW)
          (optBot (startSchedule
            ((fitStagedState stW sW yW (some 1) none).hyperparameters) drawsOne i)))
        0 ((fitStagedState stW sW yW (some 1) none).optimizations_number) =
        .ok [(startSchedule stW.hyperparameters drawsOne 0, (⊥ : EReal))] := rfl
    have hselA : selectBest
        [(startSchedule stW.hyperparameters drawsOne 0, (⊥ : EReal))] =
        some (startSchedule stW.hyperparameters drawsOne 0, (⊥ : EReal)) := rfl
    have hphase := fitOptimizePhase_eq_ok kOne1 optBot drawsOne
      (fitStagedState stW sW yW (some 1) none) (trainIn stW sW) (trainOut stW yW)
      hrunA hselA bot_ne_top
    rw [heq, hphase]
    have hEx : ∃ L, IsCholFactor L
        (kOne1.c (trainIn stW sW) (trainIn stW sW)
          (kernParams (fun j => (10 : ℝ) ^ startSchedule stW.hyperparameters drawsOne 0 j)) +
        (noiseOf (fun j => (10 : ℝ) ^ startSchedule stW.hyperparameters drawsOne 0 j)) ^ 2 •
          (1 : Matrix (Fin 1) (Fin 1) ℝ) +
        jitterEps • (1 : Matrix (Fin 1) (Fin 1) ℝ)) :=
      chol_exists_one_dim (by rw [covA_final_ent]; unfold jitterEps; norm_num)
    exact finalizeFit_error_none _ _ _ _ _ hEx
  · have heqB := gprFit_optimize_eq kNeg optArr drawsOne stW sW yW (some 1) none rfl
    have hphaseB := fitOptimizePhase_eq_err kNeg optArr drawsOne
      (fitStagedState stW sW yW (some 1) none) (trainIn stW sW) (trainOut stW yW)
      runFromNegArr
    rw [heqB, hphaseB]

/-- The `(minimizer, objective)` pairs recorded by the two restarts of the
`optNeg`/`drawsOne` scenario. -/
noncomputable def runsNeg : List ((Fin 3 → ℝ) × EReal) :=
  [(startSchedule stW.hyperparameters drawsOne 0, ((-Real.logb 10 1 : ℝ) : EReal)),
   (drawsOne 1, ((-1 : ℝ) : EReal))]

/-- The winning restart of the `optNeg`/`drawsOne` scenario. -/
noncomputable def bestNeg : (Fin 3 → ℝ) × EReal := (drawsOne 1, ((-1 : ℝ) : EReal))

lemma selectBest_runsNeg : selectBest runsNeg = some bestNeg := by
  unfold runsNeg bestNeg
  simp only [selectBest]
  rw [List.foldl_cons, List.foldl_nil]
  rw [show bestStep (startSchedule stW.hyperparameters drawsOne 0,
      ((-Real.logb 10 1 : ℝ) : EReal)) (drawsOne 1, ((-1 : ℝ) : EReal)) =
      (drawsOne 1, ((-1 : ℝ) : EReal)) from if_pos (by
        refine EReal.coe_lt_coe_iff.mpr ?_
        rw [Real.logb_one]
        norm_num)]

/-- Witness for C2 at the concrete two-restart scenario. -/
theorem C2_fit_multistart_witness :
    stW.optimizeFlag = true ∧
    selectBest runsNeg = some bestNeg ∧
    bestNeg.2 ≠ (⊤ : EReal) ∧
    ((gprFit kOne1 optNeg drawsOne stW sW yW none none).starts =
      (List.range ((none : Option ℕ).getD stW.optimizations_number)).map
        (startSchedule ((none : Option (Fin 3 → ℝ)).getD stW.hyperparameters) drawsOne) ∧
     runsNeg.length = (none : Option ℕ).getD stW.optimizations_number ∧
     bestNeg ∈ runsNeg ∧ (∀ r ∈ runsNeg, bestNeg.2 ≤ r.2) ∧
     (gprFit kOne1 optNeg drawsOne stW sW yW none none).state.hyperparameters =
       fun j => (10 : ℝ) ^ bestNeg.1 j) :=
  ⟨rfl, selectBest_runsNeg, EReal.coe_ne_top _,
    C2_fit_multistart kOne1 optNeg drawsOne stW sW yW none none
      rfl rfl selectBest_runsNeg (EReal.coe_ne_top _)⟩

/-- Witness for C3 (amended) at the all-`+∞` scenario and the
failing-Cholesky scenario. -/
theorem C3_amended_witness :
    (runFrom
      (fun i => evalRestart kOne1 (trainIn stW sW) (trainOut stW yW)
        (optTop (startSchedule ((none : Option (Fin 3 → ℝ)).getD stW.hyperparameters) drawsOne i)))
      0 ((none : Option ℕ).getD stW.optimizations_number) =
      .ok [(startSchedule stW.hyperparameters drawsOne 0, (⊤ : EReal)),
           (startSchedule stW.hyperparameters drawsOne 1, (⊤ : EReal))]) ∧
    ((gprFit kOne1 optTop drawsOne stW sW yW none none).error = some GPErr.mleFail ↔
      ∀ r ∈ [(startSchedule stW.hyperparameters drawsOne 0, (⊤ : EReal)),
             (startSchedule stW.hyperparameters drawsOne 1, (⊤ : EReal))],
        r.2 = (⊤ : EReal)) ∧
    (gprFit kNeg optArr drawsOne stW sW yW (some 1) none).error = some GPErr.cholFail :=
  ⟨rfl,
   C3_amended.1 1 1 1 kOne1 optTop drawsOne stW sW yW none none
     [(startSchedule stW.hyperparameters drawsOne 0, (⊤ : EReal)),
      (startSchedule stW.hyperparameters drawsOne 1, (⊤ : EReal))] rfl rfl (by simp),
   C3_amended.2 1 1 1 kNeg optArr drawsOne stW sW yW (some 1) none
     GPErr.cholFail 0 rfl runFromNegArr⟩

/-- Witness for C4 (amended) at the all-`+∞` failing scenario. -/
theorem C4_amended_witness :
    stW.optimizeFlag = true ∧
    (((gprFit kOne1 optTop drawsOne stW sW yW none none).error.isSome = true →
      (gprFit kOne1 optTop drawsOne stW sW yW none none).state.cc = stW.cc ∧
      (gprFit kOne1 optTop drawsOne stW sW yW none none).state.alpha_ = none ∧
      (gprFit kOne1 optTop drawsOne stW sW yW none none).state.samples = sW ∧
      (gprFit kOne1 optTop drawsOne stW sW yW none none).state.values = yW ∧
      (gprFit kOne1 optTop drawsOne stW sW yW none none).state.optimizations_number =
        (none : Option ℕ).getD stW.optimizations_number) ∧
    ((gprFit kOne1 optTop drawsOne stW sW yW none none).error = none →
      (gprFit kOne1 optTop drawsOne stW sW yW none none).state.samples = sW ∧
      (gprFit kOne1 optTop drawsOne stW sW yW none none).state.values = yW ∧
      (gprFit kOne1 optTop drawsOne stW sW yW none none).state.optimizations_number =
        (none : Option ℕ).getD stW.optimizations_number ∧
      (gprFit kOne1 optTop drawsOne stW sW yW none none).state.alpha_.isSome = true)) :=
  ⟨rfl, C4_amended kOne1 optTop drawsOne stW sW yW none none _ rfl rfl⟩

lemma C5compute (seed : ℕ) (c : ℝ) (hc : 0 < c) :
    (gprFit kOne1 optNeg (fun _ _ => c) { stW with randomSeed := seed }
      sW yW none none).state.hyperparameters = fun j => (10 : ℝ) ^ c := by
  have hrun : runFrom
      (fun i => evalRestart kOne1
        (trainIn { stW with randomSeed := seed } sW)
        (trainOut { stW with randomSeed := seed } yW)
        (optNeg (startSchedule
          ((none : Option (Fin 3 → ℝ)).getD ({ stW with randomSeed := seed } : GPState 1 1 1).hyperparameters)
          (fun _ _ => c) i)))
      0 ((none : Option ℕ).getD ({ stW with randomSeed := seed } : GPState 1 1 1).optimizations_number) =
      .ok [(startSchedule stW.hyperparameters (fun _ _ => c) 0,
              ((-Real.logb 10 1 : ℝ) : EReal)),
           ((fun _ : Fin 3 => c), ((-c : ℝ) : EReal))] := rfl
  have hsel : selectBest
      [(startSchedule stW.hyperparameters (fun _ _ => c) 0,
          ((-Real.logb 10 1 : ℝ) : EReal)),
       ((fun _ : Fin 3 => c), ((-c : ℝ) : EReal))] =
      some ((fun _ : Fin 3 => c), ((-c : ℝ) : EReal)) := by
    simp only [selectBest]
    rw [List.foldl_cons, List.foldl_nil]
    rw [show bestStep (startSchedule stW.hyperparameters (fun _ _ => c) 0,
        ((-Real.logb 10 1 : ℝ) : EReal)) ((fun _ : Fin 3 => c), ((-c : ℝ) : EReal)) =
        ((fun _ : Fin 3 => c), ((-c : ℝ) : EReal)) from if_pos (by
          refine EReal.coe_lt_coe_iff.mpr ?_
          rw [Real.logb_one]
          linarith)]
  rw [gprFit_optimize_eq kOne1 optNeg (fun _ _ => c)
    { stW with randomSeed := seed } sW yW none none rfl]
  rw [fitOptimizePhase_eq_ok kOne1 optNeg (fun _ _ => c)
    (fitStagedState { stW with randomSeed := seed } sW yW none none)
    (trainIn { stW with randomSeed := seed } sW)
    (trainOut { stW with randomSeed := seed } yW)
    hrun hsel (EReal.coe_ne_top _)]
  rw [finalizeFit_hyper]

/-- C5, evaluation of the code at the failing input: `fit` draws its random
starting points from the *global* `np.random.uniform` (line 162), never from
the instance's stored `random_state`.  Consequently (a) the stored seed is
irrelevant — instances seeded `7` and `42` select identical hyperparameters
when the global stream happens to coincide — and (b) two `fit` calls on
identically constructed, identically seeded instances with identical inputs
select *different* hyperparameters as soon as the global stream has advanced
(draw `1` at the first call, draw `2` at the second), refuting determinism as
a function of the seed and the inputs. -/
theorem C5_seed_ignored :
    (gprFit kOne1 optNeg drawsOne { stW with randomSeed := 7 }
        sW yW none none).state.hyperparameters =
      (gprFit kOne1 optNeg drawsOne stW sW yW none none).state.hyperparameters ∧
    (gprFit kOne1 optNeg drawsOne stW sW yW none none).state.hyperparameters ≠
      (gprFit kOne1 optNeg drawsTwo stW sW yW none none).state.hyperparameters := by
  have h7 : (gprFit kOne1 optNeg drawsOne { stW with randomSeed := 7 }
      sW yW none none).state.hyperparameters = fun _ => (10 : ℝ) ^ (1 : ℝ) :=
    C5compute 7 1 one_pos
  have h42 : (gprFit kOne1 optNeg drawsOne stW sW yW none none).state.hyperparameters =
      fun _ => (10 : ℝ) ^ (1 : ℝ) :=
    C5compute 42 1 one_pos
  have h42b : (gprFit kOne1 optNeg drawsTwo stW sW yW none none).state.hyperparameters =
      fun _ => (10 : ℝ) ^ (2 : ℝ) :=
    C5compute 42 2 two_pos
  refine ⟨h7.trans h42.symm, ?_⟩
  rw [h42, h42b]
  intro hcontra
  have hval := congrFun hcontra 0
  have hlt : (10 : ℝ) ^ (1 : ℝ) < (10 : ℝ) ^ (2 : ℝ) :=
    (Real.rpow_lt_rpow_left_iff (by norm_num)).mpr (by norm_num)
  exact absurd hval (ne_of_lt hlt)

/-- Constant kernel for two-dimensional inputs. -/
noncomputable def kOne2 : GPKernel 2 3 :=
  ⟨fun {_ _} _ _ _ => Matrix.of fun _ _ => 1⟩

/-- A fitted state with input dimension `2` and output dimension `1`. -/
noncomputable def st2d : GPState 1 2 1 :=
  { hyperparameters := fun _ => 1
    optimizations_number := 1
    optimizeFlag := true
    normalize := false
    bounds := fun _ => (1 / 1000, 1000)
    randomSeed := 0
    samples := Matrix.of fun _ _ => 0
    values := Matrix.of fun _ _ => 1
    sample_mean := fun _ => 0
    sample_std := fun _ => 1
    value_mean := fun _ => 0
    value_std := fun _ => 1
    cc := Matrix.of fun _ _ => 1
    alpha_ := some (Matrix.of fun _ _ => 1) }

/-- A fitted state with input dimension `1` and output dimension `3`. -/
noncomputable def st1d3 : GPState 1 1 3 :=
  { hyperparameters := fun _ => 1
    optimizations_number := 1
    optimizeFlag := true
    normalize := false
    bounds := fun _ => (1 / 1000, 1000)
    randomSeed := 0
    samples := Matrix.of fun _ _ => 0
    values := Matrix.of fun _ _ => 1
    sample_mean := fun _ => 0
    sample_std := fun _ => 1
    value_mean := fun _ => 0
    value_std := fun _ => 1
    cc := Matrix.of fun _ _ => 1
    alpha_ := some (Matrix.of fun _ _ => 1) }

/-- A single two-dimensional query point. -/
noncomputable def pts2 : Matrix (Fin 1) (Fin 2) ℝ := 0

/-- A single one-dimensional query point. -/
noncomputable def pts1 : Matrix (Fin 1) (Fin 1) ℝ := 0

/-- C9, counterexample: the posterior mean is flattened exactly when
`x_.shape[1] == 1`, i.e. when the *input* dimension is `1` — not when the
training output dimension is `1`.  With input dimension `2` and output
dimension `1` the code does not flatten; with input dimension `1` and output
dimension `3` it does — both contradict the claim's condition. -/
theorem C9_counterexample :
    (gprPredict kOne2 st2d pts2 false none).map PredictOut.meanFlattened =
      Except.ok false ∧
    (gprPredict kOne1 st1d3 pts1 false none).map PredictOut.meanFlattened =
      Except.ok true := ⟨rfl, rfl⟩

/-- C9 (amended): for a fitted (cached-factorization) regressor without
normalization, `predict` returns the posterior mean `k(x, s) · alpha_` as a
`points × outputs` matrix, flattened exactly when the *input* dimension `d`
is `1` (the code tests `x_.shape[1] == 1` on the query-point array, not the
training output dimension); the standard-deviation array, when requested, is
one-dimensional of length `points` regardless of the output dimension. -/
theorem C9_amended {n d k p : ℕ} (kern : GPKernel d (d + 1))
    (st : GPState n d k) (points : Matrix (Fin p) (Fin d) ℝ)
    (hyp? : Option (Fin (d + 2) → ℝ)) (a : Matrix (Fin n) (Fin k) ℝ)
    (ha : st.alpha_ = some a) (hnorm : st.normalize = false) :
    gprPredict kern st points false hyp? =
      .ok ⟨kern.c points st.samples (kernParams (hyp?.getD st.hyperparameters)) * a,
           decide (d = 1), none⟩ := by
  simp only [gprPredict, hnorm, ha]
  rfl

/-- Witness for C9 (amended) at the concrete two-input-dimension instance. -/
theorem C9_amended_witness :
    st2d.alpha_ = some (Matrix.of fun _ _ => 1) ∧ st2d.normalize = false ∧
    gprPredict kOne2 st2d pts2 false none =
      .ok ⟨kOne2.c pts2 st2d.samples (kernParams ((none : Option (Fin 4 → ℝ)).getD st2d.hyperparameters)) *
            (Matrix.of fun _ _ => 1),
           decide ((2 : ℕ) = 1), none⟩ :=
  ⟨rfl, rfl, C9_amended kOne2 st2d pts2 none (Matrix.of fun _ _ => 1) rfl rfl⟩

/-- C10: when the cached factorization is present (`alpha_` is not `None`)
and hyperparameters `h` are supplied explicitly, `predict` uses the cached
Cholesky factor `cc` and cached factor-solve `alpha_` for every linear solve,
while the cross-covariance `k(x, s)` and the new-point covariance `k(x, x)`
are evaluated at the supplied `h`: the supplied hyperparameters enter only
through the kernel evaluations, never through the factorization. -/
theorem C10_predict_cached {n d k p : ℕ} (kern : GPKernel d (d + 1))
    (st : GPState n d k) (points : Matrix (Fin p) (Fin d) ℝ)
    (h : Fin (d + 2) → ℝ) (a : Matrix (Fin n) (Fin k) ℝ)
    (ha : st.alpha_ = some a) (hnorm : st.normalize = false) :
    gprPredict kern st points true (some h) =
      .ok ⟨kern.c points st.samples (kernParams h) * a,
           decide (d = 1),
           some (fun i => Real.sqrt
             ((kern.c points points (kernParams h) -
               kern.c points st.samples (kernParams h) *
                 choSolve st.cc (kern.c points st.samples (kernParams h))ᵀ) i i))⟩ := by
  simp only [gprPredict, hnorm, ha]
  rfl

/-- Witness for C10 at a concrete fitted instance with supplied
hyperparameters `[2, 2, 2, 2]`. -/
theorem C10_predict_cached_witness :
    st2d.alpha_ = some (Matrix.of fun _ _ => 1) ∧ st2d.normalize = false ∧
    gprPredict kOne2 st2d pts2 true (some (fun _ => 2)) =
      .ok ⟨kOne2.c pts2 st2d.samples (kernParams (fun _ => (2 : ℝ))) *
            (Matrix.of fun _ _ => 1),
           decide ((2 : ℕ) = 1),
           some (fun i => Real.sqrt
             ((kOne2.c pts2 pts2 (kernParams (fun _ => (2 : ℝ))) -
               kOne2.c pts2 st2d.samples (kernParams (fun _ => (2 : ℝ))) *
                 choSolve st2d.cc
                   (kOne2.c pts2 st2d.samples (kernParams (fun _ => (2 : ℝ))))ᵀ) i i))⟩ :=
  ⟨rfl, rfl,
    C10_predict_cached kOne2 st2d pts2 (fun _ => 2) (Matrix.of fun _ _ => 1) rfl rfl⟩

/-- A raw rectangular data matrix with its dimensions
(`input_points[i]` of `SvdProjection`). -/
def MatEx : Type := Σ r c : ℕ, Matrix (Fin r) (Fin c) ℝ

/-- `max(np.shape(input_points[i]))` (`SvdProjection.py`, line 29). -/
def maxDim (M : MatEx) : ℕ := max M.1 M.2.1

/-- `min(np.shape(input_points[i]))` (`SvdProjection.py`, line 30). -/
def minDim (M : MatEx) : ℕ := min M.1 M.2.1

/-- `np.linalg.matrix_rank(input_points[i])` (line 43), modelled by the exact
rank of the real matrix. -/
noncomputable def matRank (M : MatEx) : ℕ := M.2.2.rank

/-- Python `min` over a nonempty list (`min(ranks)`, line 46). -/
def listMin : List ℕ → ℕ
  | [] => 0
  | x :: xs => xs.foldl min x

/-- Python `max` over a nonempty list (`max(ranks)`, line 48). -/
def listMax : List ℕ → ℕ
  | [] => 0
  | x :: xs => xs.foldl max x

/-- `sys.maxsize`, the source's sentinel for "maximum rank" (line 47). -/
def sysMaxsize : ℕ := 2 ^ 63 - 1

/-- The two exceptions `SvdProjection.__init__` can raise: the `TypeError` of
line 36 (shape validation) and the `ValueError` of line 52 (rank bound). -/
inductive SvdErr where
  | typeErr
  | valueErr
  deriving DecidableEq

/-- The shape validation of `SvdProjection.__init__` (lines 26–36):
`bool_left = n_left.count(n_left[0]) != len(n_left)` (over the *larger*
dimensions), `bool_right` likewise over the *smaller* dimensions, and the
`TypeError` fires only when `bool_left and bool_right`. -/
def svdShapeMismatch (inputs : List MatEx) : Bool :=
  (!((inputs.map maxDim).count (inputs.map maxDim).headI ==
      (inputs.map maxDim).length)) &&
  (!((inputs.map minDim).count (inputs.map minDim).headI ==
      (inputs.map minDim).length))

/-- `SvdProjection.__init__` up to rank resolution (lines 26–59): validate
shapes, then resolve `p_planes_dimensions` — sentinel `0` means the minimum
matrix rank across inputs, sentinel `sys.maxsize` the maximum, any other
value is used as-is after checking it does not exceed any input's smaller
dimension (`ValueError` otherwise).  The SVDs of lines 61–68 happen only
after this returns `.ok`. -/
noncomputable def svdProjectionInit (inputs : List MatEx) (p : ℕ) :
    Except SvdErr ℕ :=
  if svdShapeMismatch inputs then .error .typeErr
  else if p = 0 then .ok (listMin (inputs.map matRank))
  else if p = sysMaxsize then .ok (listMax (inputs.map matRank))
  else if inputs.any (fun M => minDim M < p) then .error .valueErr
  else .ok p

/-- Rank-2 diagonal `4 × 4` example matrix. -/
noncomputable def D2ex : MatEx := ⟨4, 4, Matrix.diagonal ![1, 1, 0, 0]⟩

/-- Rank-3 diagonal `4 × 4` example matrix. -/
noncomputable def D3ex : MatEx := ⟨4, 4, Matrix.diagonal ![1, 1, 1, 0]⟩

/-- Rank-4 diagonal `4 × 4` example matrix. -/
noncomputable def D4ex : MatEx := ⟨4, 4, Matrix.diagonal ![1, 1, 1, 1]⟩

lemma rank_D2ex : matRank D2ex = 2 := by
  show (Matrix.diagonal ![1, 1, 0, 0] : Matrix (Fin 4) (Fin 4) ℝ).rank = 2
  rw [Matrix.rank_diagonal]
  rw [Fintype.card_congr (@Equiv.subtypeEquivRight (Fin 4) _
    (fun i => i = 0 ∨ i = 1) (by intro i; fin_cases i <;> simp))]
  decide

lemma rank_D3ex : matRank D3ex = 3 := by
  show (Matrix.diagonal ![1, 1, 1, 0] : Matrix (Fin 4) (Fin 4) ℝ).rank = 3
  rw [Matrix.rank_diagonal]
  rw [Fintype.card_congr (@Equiv.subtypeEquivRight (Fin 4) _
    (fun i => i = 0 ∨ i = 1 ∨ i = 2) (by intro i; fin_cases i <;> simp))]
  decide

lemma rank_D4ex : matRank D4ex = 4 := by
  show (Matrix.diagonal ![1, 1, 1, 1] : Matrix (Fin 4) (Fin 4) ℝ).rank = 4
  rw [Matrix.rank_diagonal]
  rw [Fintype.card_congr (@Equiv.subtypeEquivRight (Fin 4) _
    (fun _ => True) (by intro i; fin_cases i <;> simp))]
  decide

/-- C6: rank resolution of `SvdProjection.__init__` — sentinel `0` resolves
to the minimum matrix rank across the inputs, sentinel `sys.maxsize` to the
maximum, and an explicit rank raises the `ValueError` exactly when it exceeds
some input's smaller dimension; in particular, for three `4 × 4` inputs of
ranks `2`, `3`, `4`, the minimum sentinel resolves to `2` and an explicit
rank of `5` raises. -/
theorem C6_rank_resolution :
    (∀ (inputs : List MatEx),
      svdShapeMismatch inputs = false →
      svdProjectionInit inputs 0 = .ok (listMin (inputs.map matRank)) ∧
      svdProjectionInit inputs sysMaxsize = .ok (listMax (inputs.map matRank)) ∧
      (∀ p, p ≠ 0 → p ≠ sysMaxsize →
        ((∃ M ∈ inputs, minDim M < p) →
          svdProjectionInit inputs p = .error .valueErr) ∧
        ((∀ M ∈ inputs, p ≤ minDim M) → svdProjectionInit inputs p = .ok p))) ∧
    matRank D2ex = 2 ∧ matRank D3ex = 3 ∧ matRank D4ex = 4 ∧
    svdProjectionInit [D2ex, D3ex, D4ex] 0 = .ok 2 ∧
    svdProjectionInit [D2ex, D3ex, D4ex] 5 = .error .valueErr := by
  constructor
  · intro inputs hsm
    have hno : ¬ (svdShapeMismatch inputs = true) := by simp [hsm]
    unfold svdProjectionInit
    refine ⟨?_, ?_, ?_⟩
    · rw [if_neg hno, if_pos rfl]
    · rw [if_neg hno, if_neg (by decide : ¬ (sysMaxsize = 0)), if_pos rfl]
    · intro p hp0 hpm
      constructor
      · rintro ⟨M, hM, hlt⟩
        rw [if_neg hno, if_neg hp0, if_neg hpm,
          if_pos (List.any_eq_true.mpr ⟨M, hM, decide_eq_true hlt⟩)]
      · intro hall
        rw [if_neg hno, if_neg hp0, if_neg hpm, if_neg ?_]
        intro hany
        obtain ⟨M, hM, hd⟩ := List.any_eq_true.mp hany
        exact absurd (of_decide_eq_true hd) (not_lt.mpr (hall M hM))
  · refine ⟨rank_D2ex, rank_D3ex, rank_D4ex, ?_, rfl⟩
    have h1 : svdProjectionInit [D2ex, D3ex, D4ex] 0 =
        .ok (listMin ([D2ex, D3ex, D4ex].map matRank)) := by
      unfold svdProjectionInit
      rw [if_neg (by decide), if_pos rfl]
    rw [h1, show ([D2ex, D3ex, D4ex].map matRank) = [2, 3, 4] from by
      simp [rank_D2ex, rank_D3ex, rank_D4ex]]
    rfl

/-- Witness for C6 at the three concrete diagonal matrices. -/
theorem C6_rank_resolution_witness :
    svdShapeMismatch [D2ex, D3ex, D4ex] = false ∧
    svdProjectionInit [D2ex, D3ex, D4ex] 0 =
      .ok (listMin ([D2ex, D3ex, D4ex].map matRank)) :=
  ⟨rfl, (C6_rank_resolution.1 [D2ex, D3ex, D4ex] rfl).1⟩

/-- A `2 × 3` zero matrix. -/
noncomputable def Mct1 : MatEx := ⟨2, 3, 0⟩

/-- A `2 × 4` zero matrix (same row count, different column count). -/
noncomputable def Mct2 : MatEx := ⟨2, 4, 0⟩

/-- C7, counterexample: two inputs whose column counts differ (3 vs 4, with
equal row counts) do *not* raise a shape error — the constructor proceeds and
resolves the rank — because the check compares `max(shape)` and `min(shape)`
and fires only when *both* are inconsistent. -/
theorem C7_counterexample :
    Mct1.1 = Mct2.1 ∧ Mct1.2.1 ≠ Mct2.2.1 ∧
    svdProjectionInit [Mct1, Mct2] 1 = .ok 1 :=
  ⟨rfl, by decide, rfl⟩

/-- A `4 × 3` zero matrix (different row count from `Mct1`, same column
count). -/
noncomputable def Mct3 : MatEx := ⟨4, 3, 0⟩

/-- C7 (amended): `SvdProjection.__init__` raises its shape `TypeError` if
and only if the larger dimensions (`max(shape)`) are inconsistent across the
input list *and* the smaller dimensions (`min(shape)`) are inconsistent as
well.  This is not the row/column criterion in either direction: a `2 × 3`
with a `2 × 4` input (columns differ, rows equal; max-dims `3, 4` differ but
min-dims `2, 2` agree) passes validation, while a `2 × 3` with a `4 × 3`
input (rows differ, columns equal) raises, because its max-dims `3, 4` *and*
min-dims `2, 3` are both inconsistent. -/
theorem C7_amended :
    (∀ (inputs : List MatEx) (p : ℕ),
      svdProjectionInit inputs p = .error SvdErr.typeErr ↔
        (¬ ∀ x ∈ inputs.map maxDim, x = (inputs.map maxDim).headI) ∧
        (¬ ∀ x ∈ inputs.map minDim, x = (inputs.map minDim).headI)) ∧
    (Mct1.1 ≠ Mct3.1 ∧ Mct1.2.1 = Mct3.2.1 ∧
      svdProjectionInit [Mct1, Mct3] 1 = .error SvdErr.typeErr) ∧
    (Mct1.1 = Mct2.1 ∧ Mct1.2.1 ≠ Mct2.2.1 ∧
      svdProjectionInit [Mct1, Mct2] 1 = .ok 1) := by
  refine ⟨fun inputs p => ?_, ⟨by decide, rfl, rfl⟩, ⟨rfl, by decide, rfl⟩⟩
  by_cases hsm : svdShapeMismatch inputs = true
  · unfold svdProjectionInit
    rw [if_pos hsm]
    simp only [svdShapeMismatch, Bool.and_eq_true, Bool.not_eq_true',
      beq_eq_false_iff_ne] at hsm
    obtain ⟨h1, h2⟩ := hsm
    constructor
    · intro _
      constructor
      · intro hall
        exact h1 ((List.count_eq_length).mpr (fun b hb => (hall b hb).symm))
      · intro hall
        exact h2 ((List.count_eq_length).mpr (fun b hb => (hall b hb).symm))
    · intro _
      rfl
  · constructor
    · intro heq
      exfalso
      unfold svdProjectionInit at heq
      rw [if_neg hsm] at heq
      by_cases h0 : p = 0
      · rw [if_pos h0] at heq
        exact absurd heq (by simp)
      · rw [if_neg h0] at heq
        by_cases hm : p = sysMaxsize
        · rw [if_pos hm] at heq
          exact absurd heq (by simp)
        · rw [if_neg hm] at heq
          by_cases hany : inputs.any (fun M => minDim M < p) = true
          · rw [if_pos hany] at heq
            simp at heq
          · rw [if_neg hany] at heq
            exact absurd heq (by simp)
    · rintro ⟨h1, h2⟩
      exfalso
      apply hsm
      simp only [svdShapeMismatch, Bool.and_eq_true, Bool.not_eq_true',
        beq_eq_false_iff_ne]
      constructor
      · intro hc
        exact h1 (fun b hb => ((List.count_eq_length).mp hc b hb).symm)
      · intro hc
        exact h2 (fun b hb => ((List.count_eq_length).mp hc b hb).symm)

/-- Python values that can be passed as `interpolation_method` to
`ManifoldInterpolation` (annotated `Union[Surrogate, callable, None]`):
the class object `Surrogate` itself, the builtin `callable` itself, an
*instance* of a `Surrogate` subclass, a user-defined callable object, or
`None`.  Python's `is` is identity, i.e. equality of these tags. -/
inductive PyInterpMethod where
  | surrogateClass
  | callableBuiltin
  | surrogateInstance (id : ℕ)
  | userCallable (id : ℕ)
  | noneVal
  deriving DecidableEq

/-- The three interpolation schemes of `ManifoldInterpolation`. -/
inductive InterpBranch where
  | perEntrySurrogate
  | applyCallable
  | linearND
  deriving DecidableEq

/-- The scheme dispatch of `ManifoldInterpolation.interpolate_manifold`
(lines 71–79) and `__init__` (line 39): `self.interpolation_method is
Surrogate` and `... is callable` compare identity with the class object and
the builtin, so only those two exact objects select the first two branches;
everything else falls to `LinearNDInterpolator`. -/
def chooseBranch (m : PyInterpMethod) : InterpBranch :=
  if m = PyInterpMethod.surrogateClass then .perEntrySurrogate
  else if m = PyInterpMethod.callableBuiltin then .applyCallable
  else .linearND

/-- Modelled from the spec: the claim's dispatch — "when a scalar-surrogate
regressor is injected, one regressor is fitted per tangent-matrix entry ...;
when a user-supplied callable is given, the callable is applied ...;
otherwise piecewise-linear interpolation ... is used (the default)". -/
def claimBranch (m : PyInterpMethod) : InterpBranch :=
  match m with
  | .surrogateInstance _ => .perEntrySurrogate
  | .userCallable _ => .applyCallable
  | _ => .linearND

/-- Python list assignment `l[i] = a`: `IndexError` (here `none`) when `i`
is out of range. -/
def pyListSet {α : Type} (l : List α) (i : ℕ) (a : α) : Option (List α) :=
  if i < l.length then some (l.set i a) else none

/-- The per-entry surrogate construction of `ManifoldInterpolation.__init__`
(lines 40–50): starting from `self.surrogates = [[]]`, execute
`self.surrogates[j][k] = ...` for every `j < n_rows`, `k < n_cols`
(elements abstracted to `0`).  `none` models the `IndexError` Python raises
on the first assignment into the empty inner list. -/
def buildSurrogates (nRows nCols : ℕ) : Option (List (List ℕ)) :=
  (List.range nRows).foldl
    (fun acc j =>
      (List.range nCols).foldl
        (fun acc2 k =>
          acc2.bind (fun st =>
            (st.get? j).bind (fun inner =>
              (pyListSet inner k 0).map (fun inner2 => st.set j inner2))))
        acc)
    (some [[]])

/-- C8, evaluation of the code at the failing inputs: an injected
scalar-surrogate regressor *instance* — and likewise a user-supplied
callable — is dispatched to the `LinearNDInterpolator` default branch, not
to the branch the claim describes, because the code compares identity with
the class object `Surrogate` / the builtin `callable`; moreover, even for
the class object itself (the only value selecting the surrogate branch) the
per-entry construction crashes immediately (`self.surrogates = [[]]`
followed by `self.surrogates[0][0] = ...` raises `IndexError`), so no
regressor is ever fitted per tangent-matrix entry. -/
theorem C8_dispatch_bug :
    chooseBranch (PyInterpMethod.surrogateInstance 0) = InterpBranch.linearND ∧
    claimBranch (PyInterpMethod.surrogateInstance 0) =
      InterpBranch.perEntrySurrogate ∧
    chooseBranch (PyInterpMethod.userCallable 0) = InterpBranch.linearND ∧
    claimBranch (PyInterpMethod.userCallable 0) = InterpBranch.applyCallable ∧
    chooseBranch PyInterpMethod.surrogateClass = InterpBranch.perEntrySurrogate ∧
    buildSurrogates 1 1 = none := by
  refine ⟨rfl, rfl, rfl, rfl, rfl, rfl⟩
